import Mathlib

/-!
Shallow embedding of the PC-Canary application-instrumentation and
event-correlation layer (`src/evaluator/core/`), together with theorems
settling the frozen claims about it.

Embedding conventions:
* The filesystem is a map `String → Option String` from a path to the file's
  content (`none` models a nonexistent path; `open` on it raises).
* Python exceptions are modelled with `Except String`; a `try/except` block
  becomes a `match` on the `Except` value.
* Real-time waits (window polling, sleeps, bounded acknowledgment waits) have
  no effect on the modelled state and are elided; their final state effect,
  where any exists, is kept.
* The `ResultCollector` / `AgentEvent` modules are imported by
  `base_evaluator.py` but are not present in the sources; the event log is
  modelled from the spec as an append-only list of typed, data-carrying
  events ("Event log output: append-only sequence of typed events").
-/

namespace PCCanary

/-- Log level of the Python `logging` calls; the claims only distinguish
levels, so messages are kept as short static skeletons of the source
f-strings. -/
inductive LogLevel where
  | debug | info | warning | error
deriving DecidableEq, Repr

/-- Modelled from the spec: the typed event kinds of the event log
(`evaluator.core.events.AgentEvent`, absent from the sources): task-start,
task-end, key-step-completed, agent-error and app-specific events. -/
inductive AgentEvent where
  | TASK_START
  | TASK_END
  | KEY_STEP_COMPLETED
  | AGENT_ERROR_OCCURRED
  | APP_SPECIFIC_EVENT
deriving DecidableEq, Repr

/-- Modelled from the spec: the data dictionary attached to a recorded event.
Only the keys that `base_evaluator.py` actually writes are modelled; the
wall-clock `timestamp` key is elided. -/
structure EventData where
  status : Option String := none
  reason : Option String := none
  error : Option String := none
  message : Option String := none
  stackTrace : Option String := none
  stepIndex : Option Int := none
  stepName : Option String := none
  name : Option String := none
  payload : Option String := none
deriving DecidableEq, Repr

/-- A single update dictionary returned by a task handler.  The evaluator
reads exactly these keys; `index := none` models an absent `"index"` key or
one whose value is not an `int`. -/
structure UpdateDict where
  status : Option String := none
  reason : Option String := none
  errorType : Option String := none
  message : Option String := none
  stackTrace : Option String := none
  index : Option Int := none
  name : Option String := none
  payload : Option String := none
deriving DecidableEq, Repr

/-- An item of the list returned by a handler: either an update dictionary or
a non-dict item (which the evaluator warns about and skips). -/
inductive HandlerItem where
  | dict (u : UpdateDict)
  | notDict
deriving DecidableEq, Repr

/-- Outcome of one handler invocation: an exception with its text, or a
returned value (`none` models both `None` and a non-list return, which the
evaluator treats alike by returning early). -/
abbrev HandlerOutcome := Except String (Option (List HandlerItem))

/-- State of `BaseEvaluator` restricted to the fields the claims are about.
`events` is the spec-modelled `ResultCollector` log, `callbacksFired` records
each `_trigger_completion_callbacks` broadcast as one `(event_type, message)`
pair. -/
structure Evaluator where
  isRunning : Bool := false
  totalKeySteps : Int := 0
  hasMessageHandler : Bool := true
  finalCallbackTriggered : Bool := false
  events : List (AgentEvent × EventData) := []
  callbacksFired : List (String × String) := []
  logs : List (LogLevel × String) := []
deriving DecidableEq, Repr

namespace Evaluator

/-- Append a log entry (`self.logger.<level>(msg)`). -/
def log (st : Evaluator) (lvl : LogLevel) (msg : String) : Evaluator :=
  { st with logs := st.logs ++ [(lvl, msg)] }

/-- Embedding of `BaseEvaluator.record_event` over the spec-modelled
append-only event log. -/
def record_event (st : Evaluator) (e : AgentEvent) (d : EventData) : Evaluator :=
  { st with events := st.events ++ [(e, d)] }

/-- Embedding of `BaseEvaluator._trigger_completion_callbacks`: logs, sets the
final flag when the event type is final, then invokes every registered
callback (recorded as one broadcast entry; callback exceptions are swallowed
by the source and have no state effect). -/
def triggerCompletionCallbacks (st : Evaluator) (eventType msg : String) : Evaluator :=
  let st := st.log .info "Triggering callback"
  let st :=
    if eventType = "task_completed" ∨ eventType = "task_error" then
      { st with finalCallbackTriggered := true }
    else st
  { st with callbacksFired := st.callbacksFired ++ [(eventType, msg)] }

/-- Embedding of the per-update `match status` dispatch inside
`BaseEvaluator._on_message`. -/
def applyUpdate (st : Evaluator) (it : HandlerItem) : Evaluator :=
  match it with
  | .notDict => st.log .warning "Handler returned invalid item in list"
  | .dict u =>
    match u.status with
    | some "success" =>
      let reason := u.reason.getD "Handler reported success"
      let st := st.log .info "Handler reported success"
      let st := st.record_event .TASK_END
        { status := some "success", reason := some reason }
      st.triggerCompletionCallbacks "task_completed" reason
    | some "error" =>
      let errorType := u.errorType.getD "handler_error"
      let errorMessage := u.message.getD "Handler reported error"
      let errorReason := errorType ++ ": " ++ errorMessage
      let st := st.log .error "Handler reported error"
      let st := st.record_event .AGENT_ERROR_OCCURRED
        { error := some errorType, message := some errorMessage
          stackTrace := u.stackTrace }
      let st := st.record_event .TASK_END
        { status := some "failure", reason := some errorReason }
      st.triggerCompletionCallbacks "task_error" errorReason
    | some "key_step" =>
      match u.index with
      | none =>
        st.log .warning "Handler returned key_step with invalid index"
      | some i =>
        if i ≤ 0 then
          st.log .warning "Handler returned key_step with invalid index"
        else
          let st :=
            if i > st.totalKeySteps then
              st.log .warning "Handler returned key_step index exceeds total steps"
            else st
          let st := st.log .info "Handler reported key step completion"
          st.record_event .KEY_STEP_COMPLETED
            { stepIndex := some i, stepName := u.name }
    | some "app_event" =>
      let eventName := u.name.getD "unknown_app_event"
      let st := st.log .debug "Handler reported app event"
      st.record_event .APP_SPECIFIC_EVENT
        { name := some eventName, payload := u.payload }
    | some "continue" | none => st
    | some _ =>
      st.log .warning "Handler returned unrecognized status"

/-- Embedding of `BaseEvaluator._on_message`, parameterised by the outcome of
the task-handler invocation (the handler itself is externally supplied task
code). -/
def onOutcome (st : Evaluator) (outcome : HandlerOutcome) : Evaluator :=
  if !st.hasMessageHandler then st
  else
    match outcome with
    | .error e =>
      let errorReason := "Handler execution error: " ++ e
      let st := st.log .error "Error executing message_handler"
      let st := st.record_event .AGENT_ERROR_OCCURRED
        { error := some "Handler Exception", message := some e }
      let st := st.record_event .TASK_END
        { status := some "failure", reason := some errorReason }
      let st := st.triggerCompletionCallbacks "task_error" errorReason
      { st with finalCallbackTriggered := true }
    | .ok none => st
    | .ok (some items) => items.foldl applyUpdate st

/-- The fixed reason string hard-coded in `BaseEvaluator.stop`. -/
def stopMessage : String :=
  "Evaluator stopped externally or timed out before handler completion"

/-- Embedding of `BaseEvaluator.stop`.  `unloadOutcomes` is the sequence of
handler outcomes (possibly empty) that the backend's `unload_scripts` call
feeds back into `_on_message` via `trigger_evaluate_on_completion`; session
end and result saving live in the spec-modelled result store and have no
state effect here. -/
def stop (st : Evaluator) (unloadOutcomes : List HandlerOutcome) : Evaluator :=
  if !st.isRunning then st.log .warning "Evaluator is not running"
  else
    let st := { st with isRunning := false }
    let st := unloadOutcomes.foldl onOutcome st
    if !st.finalCallbackTriggered then
      let st := st.log .warning stopMessage
      st.record_event .TASK_END
        { status := some "stopped", reason := some stopMessage }
    else st

end Evaluator

/-! ## Probe bundles and script concatenation -/

/-- Content of one probe bundle as every injection site builds it
(`hook_manager.load_scripts`, `ipc_injector.load_scripts` and the bridge
`connect` replay all run the same read-and-join code): the primary script is
read first, then each dependency in order, and the pieces are joined with a
single newline.  `none` models the `open` call raising because some path does
not exist, which each site catches per bundle. -/
def bundleContent (fs : String → Option String) :
    String × List String → Option String
  | (scriptPath, depScriptList) => do
    let primary ← fs scriptPath
    let deps ← depScriptList.mapM fs
    pure (String.intercalate "\n" (primary :: deps))

/-! ## In-process attach backend (`hook_manager.py`) -/

/-- The message the attach backend hands to the evaluator sink from
`trigger_evaluate_on_completion`; its content is opaque to the claims. -/
def evaluateOnCompletionMessage : String := "evaluate_on_completion"

/-- A message sink (`eval_handler`): external code that may raise. -/
def EvalSink := String → Except String Unit

/-- State of `HookManager` restricted to the fields the claims are about. -/
structure HookManager where
  scripts : List (String × List String) := []
  loadedScripts : List String := []
  fridaSession : Bool := false
  evalHandler : Option EvalSink := none
  appPath : Option String := none
  args : List String := []
  appProcess : Option Nat := none
  evaluateOnCompletion : Bool := false
  appStarted : Bool := false

namespace HookManager

/-- Embedding of `HookManager.add_script`: register the bundle only when the
primary script path exists; a missing path is logged, never raised. -/
def add_script (fs : String → Option String) (st : HookManager)
    (hookerPath : String) (depScriptList : List String) : HookManager :=
  if (fs hookerPath).isSome then
    { st with scripts := st.scripts ++ [(hookerPath, depScriptList)] }
  else st

/-- Embedding of `HookManager.load_scripts`.  `attach` models
`frida.attach(pid)` succeeding, `compileOk` models
`create_script(...).load()` succeeding on a given content; both raise
otherwise.  A `None` application process raises inside the outer `try`
(reading `.pid`), which the source catches and turns into `False`. -/
def load_scripts (fs : String → Option String) (attach : Nat → Bool)
    (compileOk : String → Bool) (st : HookManager) (sink : EvalSink) :
    Bool × HookManager :=
  if st.scripts.isEmpty then (false, st)
  else
    let st := { st with evalHandler := some sink }
    match st.appProcess with
    | none => (false, st)
    | some pid =>
      if !attach pid then (false, st)
      else
        let st := { st with fridaSession := true }
        let loaded := st.scripts.filterMap fun bundle =>
          match bundleContent fs bundle with
          | none => none
          | some content => if compileOk content then some content else none
        let st := { st with loadedScripts := st.loadedScripts ++ loaded }
        (!st.loadedScripts.isEmpty, st)

/-- Embedding of `HookManager.trigger_evaluate_on_completion`: calls the
stored sink with the evaluate-on-completion message; with no sink stored the
call itself raises (`None` is not callable). -/
def trigger_evaluate_on_completion (st : HookManager) : Except String Unit :=
  match st.evalHandler with
  | none => .error "TypeError: NoneType object is not callable"
  | some sink => sink evaluateOnCompletionMessage

/-- Embedding of `HookManager.unload_scripts`: one `try` covers the optional
evaluate-on-completion trigger and the whole teardown, and its `except`
swallows any exception, so an exception escaping the trigger call skips the
remaining teardown. -/
def unload_scripts (st : HookManager) : HookManager :=
  if st.evaluateOnCompletion then
    match st.trigger_evaluate_on_completion with
    | .ok _ => { st with loadedScripts := [], fridaSession := false }
    | .error _ => st
  else { st with loadedScripts := [], fridaSession := false }

/-- Embedding of `HookManager.start_app`.  `which` models `shutil.which`,
`spawn` models `subprocess.Popen` returning a pid or raising.  The window
polling that follows a successful spawn only sleeps and is elided. -/
def start_app (fs : String → Option String) (which : String → Option String)
    (spawn : List String → Except String Nat) (st : HookManager) :
    Bool × HookManager :=
  let st :=
    match st.appPath with
    | none => st
    | some p =>
      match (if (fs p).isSome then some p else which p) with
      | none => st
      | some r =>
        match spawn (r :: st.args) with
        | .error _ => st
        | .ok pid => { st with appProcess := some pid }
  (true, { st with appStarted := true })

end HookManager

/-! ## Out-of-process bridge backend (`ipc_injector.py`) -/

/-- An outbound command queued in `shared_dict['msg_from_evaluator']`. -/
inductive OutboundCommand where
  | inject (sid : String) (content : String)
  | evaluate (sid : String)
deriving DecidableEq, Repr

/-- State of `IpcInjector` restricted to the fields the claims are about; the
inbound message queue and its drain thread do not participate in any claim
and are elided. -/
structure IpcInjector where
  scripts : List (String × List String) := []
  loadedScripts : List (String × List String) := []
  targetSessionId : List String := []
  msgFromEvaluator : List OutboundCommand := []
  onMessageSet : Bool := false
  evaluateOnCompletion : Bool := false
  triggeredEvaluate : Bool := false
  appConnect : Bool := false
  appStarted : Bool := false
  appPath : Option String := none
  args : List String := []
  appProcess : Option Nat := none
  messageHandleRunning : Bool := true
  serverAlive : Bool := true
  managerAlive : Bool := true
deriving DecidableEq, Repr

namespace IpcInjector

/-- Embedding of `IpcInjector.add_script`: same existence check as the attach
backend, over the shared script registry. -/
def add_script (fs : String → Option String) (st : IpcInjector)
    (hookerPath : String) (depScriptList : List String) : IpcInjector :=
  if (fs hookerPath).isSome then
    { st with scripts := st.scripts ++ [(hookerPath, depScriptList)] }
  else st

/-- Body of the per-bundle loop of `IpcInjector.load_scripts`: read and
concatenate the bundle (an unreadable bundle is logged and skipped), then
enqueue one inject command per connected session and record the bundle as
loaded. -/
def loadStep (fs : String → Option String) (acc : Bool × IpcInjector)
    (bundle : String × List String) : Bool × IpcInjector :=
  let (success, st) := acc
  match bundleContent fs bundle with
  | none => (success, st)
  | some content =>
    let cmds := st.targetSessionId.map fun sid => .inject sid content
    (true, { st with msgFromEvaluator := st.msgFromEvaluator ++ cmds
                     loadedScripts := st.loadedScripts ++ [bundle] })

/-- Embedding of `IpcInjector.load_scripts`: stores the sink, requires at
least one registered bundle and one connected session, then runs the
per-bundle loop over every registered bundle. -/
def load_scripts (fs : String → Option String) (st : IpcInjector) :
    Bool × IpcInjector :=
  let st := { st with onMessageSet := true }
  if st.scripts.isEmpty then (false, st)
  else if st.targetSessionId.isEmpty then (false, st)
  else st.scripts.foldl (loadStep fs) (false, st)

/-- Embedding of the bridge server's `connect` event handler: registers the
session id, then best-effort replays every registered bundle to the new
session; returns the list of `(sid, content)` inject emissions made directly
over the socket. -/
def connect (fs : String → Option String) (st : IpcInjector) (sid : String) :
    IpcInjector × List (String × String) :=
  let st := { st with targetSessionId := st.targetSessionId ++ [sid] }
  let emitted := st.scripts.filterMap fun bundle =>
    (bundleContent fs bundle).map fun content => (sid, content)
  (st, emitted)

/-- Embedding of `IpcInjector.trigger_evaluate_on_completion`: enqueues one
evaluate command per connected session, then waits (bounded, polling) for the
acknowledgment flag, which has no effect on this state. -/
def trigger_evaluate_on_completion (st : IpcInjector) : IpcInjector :=
  { st with msgFromEvaluator :=
      st.msgFromEvaluator ++ st.targetSessionId.map .evaluate }

/-- Embedding of `IpcInjector.unload_scripts`: optional evaluate trigger,
then clears the loaded-script and session registries, stops the drain thread,
terminates the server child and shuts the manager down. -/
def unload_scripts (st : IpcInjector) : IpcInjector :=
  let st := if st.evaluateOnCompletion then st.trigger_evaluate_on_completion else st
  { st with loadedScripts := [], targetSessionId := []
            messageHandleRunning := false, serverAlive := false
            managerAlive := false }

/-- Embedding of `IpcInjector.start_app`: the path must exist literally on
the filesystem (no lookup-path search on this backend); the script is run
through an explicit `/bin/bash`; every failure is logged and swallowed.  The
bounded wait for a socket connection is folded to its final flag effect. -/
def start_app (fs : String → Option String)
    (spawn : List String → Except String Nat) (st : IpcInjector) :
    Bool × IpcInjector :=
  let st :=
    match st.appPath with
    | some p =>
      if (fs p).isSome then
        match spawn ("/bin/bash" :: p :: st.args) with
        | .error _ => st
        | .ok pid =>
          let st := { st with appProcess := some pid }
          if st.appConnect then st
          else if !st.targetSessionId.isEmpty then { st with appConnect := true }
          else st
      else st
    | none => st
  (true, { st with appStarted := true })

end IpcInjector

/-! ## In-process library backend (`state_inspector.py`) -/

/-- What dynamic import of a hook script yields: whether the module has each
lifecycle hook and whether its `inspector_on_start` call returns normally.
The import environment is an oracle `String → Option PyModule`; `none`
models the import itself raising. -/
structure PyModule where
  hasOnStart : Bool
  onStartOk : Bool
  hasOnCompletion : Bool
deriving DecidableEq, Repr

/-- Embedding of the dotted module path built in
`StateInspector.load_scripts`: the last five path segments minus the file
name, plus the file name without its extension, joined with dots. -/
def modulePath (script : String) : String :=
  let segments := script.splitOn "/"
  String.intercalate "."
    ((segments.drop (segments.length - 5)).dropLast
      ++ [((segments.getLastD "").splitOn ".").headD ""])

/-- One bundle's import loop in `StateInspector.load_scripts`: per script,
load the module, append its `inspector_on_start` hook (then call it) and
its `inspector_on_completion` hook when present.  An import error or a
raising `inspector_on_start` aborts the rest of the bundle but keeps the
hooks already appended.  Returns the appended on-start hooks, the appended
on-completion hooks, and whether the whole bundle succeeded. -/
def loadBundleModules (imp : String → Option PyModule) :
    List String → List String × List String × Bool
  | [] => ([], [], true)
  | s :: rest =>
    match imp (modulePath s) with
    | none => ([], [], false)
    | some m =>
      if m.hasOnStart && !m.onStartOk then ([modulePath s], [], false)
      else
        let (starts, comps, ok) := loadBundleModules imp rest
        ((if m.hasOnStart then [modulePath s] else []) ++ starts,
         (if m.hasOnCompletion then [modulePath s] else []) ++ comps, ok)

/-- State of `StateInspector` restricted to the fields the claims are about.
The recorded hooks are kept as module-path strings. -/
structure StateInspector where
  scripts : List (String × List String) := []
  loadedScripts : List (String × List String) := []
  inspectorOnStart : List String := []
  inspectorOnCompletion : List String := []
  evalHandlerSet : Bool := false
  evaluateOnCompletion : Bool := false
  appStarted : Bool := false
  appPath : Option String := none
deriving DecidableEq, Repr

namespace StateInspector

/-- Embedding of `StateInspector.add_script` (same body as the attach
backend's). -/
def add_script (fs : String → Option String) (st : StateInspector)
    (hookerPath : String) (depScriptList : List String) : StateInspector :=
  if (fs hookerPath).isSome then
    { st with scripts := st.scripts ++ [(hookerPath, depScriptList)] }
  else st

/-- Body of the per-bundle loop of `StateInspector.load_scripts`.  The source
appends the primary path to the bundle's own dependency list
(`dep_script_list.append(script_path)`); since that list object is the one
stored in the registry, the registered bundle itself is mutated, which the
embedding renders by updating the registry entry to `(p, deps ++ [p])`.  The
append happens before the import loop, so it persists even when the bundle's
module loading fails; hooks appended before a failure are likewise kept. -/
def loadStep (imp : String → Option PyModule) (acc : StateInspector)
    (bundle : String × List String) : StateInspector :=
  let (p, deps) := bundle
  let mutated := deps ++ [p]
  let (starts, comps, ok) := loadBundleModules imp mutated
  let acc := { acc with
    inspectorOnStart := acc.inspectorOnStart ++ starts
    inspectorOnCompletion := acc.inspectorOnCompletion ++ comps }
  let acc :=
    if ok then { acc with loadedScripts := acc.loadedScripts ++ [(p, mutated)] }
    else acc
  { acc with scripts := acc.scripts ++ [(p, mutated)] }

/-- Embedding of `StateInspector.load_scripts`: stores the sink and runs the
mutating per-bundle loop over every registered bundle. -/
def load_scripts (imp : String → Option PyModule) (st : StateInspector) :
    Bool × StateInspector :=
  let st := { st with evalHandlerSet := true }
  if st.scripts.isEmpty then (false, st)
  else
    let st' := st.scripts.foldl (loadStep imp) { st with scripts := [] }
    (!st'.loadedScripts.isEmpty, st')

/-- Embedding of `StateInspector.trigger_evaluate_on_completion`: calls every
recorded on-completion hook, passing the evaluator sink; the whole loop sits
in a `try` whose `except` only logs, so nothing escapes and this state is
unchanged. -/
def trigger_evaluate_on_completion (st : StateInspector) : StateInspector :=
  st

/-- Embedding of `StateInspector.unload_scripts`: optional evaluate trigger,
then clears both hook lists, the sink and the loaded-script list; no `try`
is needed because nothing in the body raises. -/
def unload_scripts (st : StateInspector) : StateInspector :=
  let st := if st.evaluateOnCompletion then st.trigger_evaluate_on_completion else st
  { st with inspectorOnCompletion := [], inspectorOnStart := []
            evalHandlerSet := false, loadedScripts := [] }

end StateInspector

/-! ## Constructor-time script registration (`BaseEvaluator.__init__`) -/

/-- One entry of `config["evaluation_setup"]["scripts"]`, with paths already
resolved against the task directory. -/
structure ScriptCfg where
  path : String
  role : String
  dependency : Option (List String) := none
deriving DecidableEq, Repr

/-- Dependency-existence loop of `BaseEvaluator.__init__`: collect the
resolved dependency paths, raising `RuntimeError` on the first missing one. -/
def checkDeps (fs : String → Option String) : List String → Except String (List String)
  | [] => .ok []
  | d :: rest =>
    if (fs d).isNone then .error "Hook dependency file does not exist"
    else do
      let others ← checkDeps fs rest
      pure (d :: others)

/-- Embedding of the script-registration loop of `BaseEvaluator.__init__`:
every configured script path must exist (else `RuntimeError`), a hook
script's dependencies must all exist (else `RuntimeError`), and each hook is
then handed to the backend's `add_script`.  Returns the backend's resulting
script registry (built here over the attach backend's registry shape, which
all three backends share). -/
def registerScripts (fs : String → Option String) :
    List ScriptCfg → Except String (List (String × List String))
  | [] => .ok []
  | c :: rest =>
    if (fs c.path).isNone then .error "Script file does not exist"
    else if c.role = "hook" then
      match checkDeps fs (c.dependency.getD []) with
      | .error e => .error e
      | .ok deps =>
        match registerScripts fs rest with
        | .error e => .error e
        | .ok others => .ok ((c.path, deps) :: others)
    else registerScripts fs rest

/-! ## Theorems settling the claims -/

/-- C1, counterexample: the claim that completion callbacks fire at most once
per session is false at a concrete input.  A fresh evaluator processing one
handler return that contains two success updates fires the `task_completed`
callback twice: the second success update is not ignored by any
already-finalized guard, because neither the success branch of `_on_message`
nor `_trigger_completion_callbacks` consults `_final_callback_triggered`. -/
theorem C1_counterexample :
    (({} : Evaluator).onOutcome
        (.ok (some
          [.dict { status := some "success", reason := some "first" },
           .dict { status := some "success", reason := some "second" }]))).callbacksFired
      = [("task_completed", "first"), ("task_completed", "second")] := by
  rfl

/-- C1, amended: the already-finalized guard exists only on the external-stop
path.  Even when the internal final flag is already set, a later success
update fires the `task_completed` callback again and a later handler
exception fires the `task_error` callback again; only `stop()` consults the
flag and records no further task-end event. -/
theorem C1_amended_guard_only_in_stop (st : Evaluator) (r e : String)
    (hh : st.hasMessageHandler = true)
    (hfin : st.finalCallbackTriggered = true) :
    (st.onOutcome
        (.ok (some [.dict { status := some "success", reason := some r }]))).callbacksFired
        = st.callbacksFired ++ [("task_completed", r)]
  ∧ (st.onOutcome (.error e)).callbacksFired
        = st.callbacksFired ++ [("task_error", "Handler execution error: " ++ e)]
  ∧ (st.stop []).events = st.events := by
  refine ⟨?_, ?_, ?_⟩
  · simp [Evaluator.onOutcome, hh, Evaluator.applyUpdate,
      Evaluator.triggerCompletionCallbacks, Evaluator.record_event, Evaluator.log]
  · simp [Evaluator.onOutcome, hh,
      Evaluator.triggerCompletionCallbacks, Evaluator.record_event, Evaluator.log]
  · unfold Evaluator.stop
    by_cases hr : st.isRunning
    · simp [hr, hfin, Evaluator.log]
    · simp [hr, Evaluator.log]

/-- C1, witness for the amended theorem at a concrete already-finalized
evaluator. -/
theorem C1_amended_guard_only_in_stop_witness :
    (({ finalCallbackTriggered := true, isRunning := true } : Evaluator).onOutcome
        (.ok (some [.dict { status := some "success", reason := some "again" }]))).callbacksFired
        = [("task_completed", "again")]
  ∧ (({ finalCallbackTriggered := true, isRunning := true } : Evaluator).onOutcome
        (.error "late")).callbacksFired
        = [("task_error", "Handler execution error: " ++ "late")]
  ∧ (({ finalCallbackTriggered := true, isRunning := true } : Evaluator).stop []).events = [] :=
  C1_amended_guard_only_in_stop
    { finalCallbackTriggered := true, isRunning := true } "again" "late" rfl rfl

/-- C4, counterexample: after a first handler exception has finalized the
session and set the internal final flag, a second handler exception is not
ignored — it records its events and fires the `task_error` callback again —
so the flag does not make later triggers be ignored as the claim asserts. -/
theorem C4_counterexample :
    ((({} : Evaluator).onOutcome (.error "boom")).onOutcome
        (.error "late")).callbacksFired
      = [("task_error", "Handler execution error: boom"),
         ("task_error", "Handler execution error: late")] := by
  rfl

/-- C4, amended: a handler invocation raising with text `m` is recovered at
the dispatch boundary and treated as an implicit error update.  The event log
gains exactly one agent-error event carrying message `m` and exactly one
task-end event with status failure, the `task_error` callback fires exactly
once for it, and the internal final flag ends up set — but the flag does not
make later triggers be ignored (only `stop()` consults it): a subsequent
handler exception records and fires all over again. -/
theorem C4_handler_exception_recovered (st : Evaluator) (m : String)
    (hh : st.hasMessageHandler = true) :
    (st.onOutcome (.error m)).events
      = st.events ++
        [(.AGENT_ERROR_OCCURRED, { error := some "Handler Exception", message := some m }),
         (.TASK_END, { status := some "failure",
                       reason := some ("Handler execution error: " ++ m) })]
  ∧ (st.onOutcome (.error m)).callbacksFired
      = st.callbacksFired ++ [("task_error", "Handler execution error: " ++ m)]
  ∧ (st.onOutcome (.error m)).finalCallbackTriggered = true
  ∧ (∀ m2 : String, ((st.onOutcome (.error m)).onOutcome (.error m2)).callbacksFired
      = st.callbacksFired ++
        [("task_error", "Handler execution error: " ++ m),
         ("task_error", "Handler execution error: " ++ m2)]) := by
  refine ⟨?_, ?_, ?_, ?_⟩ <;>
    simp [Evaluator.onOutcome, hh,
      Evaluator.triggerCompletionCallbacks, Evaluator.record_event, Evaluator.log]

/-- C4, witness at a fresh evaluator whose handler raises `"boom"` and later
`"late"`. -/
theorem C4_handler_exception_recovered_witness :
    (({} : Evaluator).onOutcome (.error "boom")).events
      = [(.AGENT_ERROR_OCCURRED, { error := some "Handler Exception", message := some "boom" }),
         (.TASK_END, { status := some "failure",
                       reason := some ("Handler execution error: " ++ "boom") })]
  ∧ (({} : Evaluator).onOutcome (.error "boom")).callbacksFired
      = [("task_error", "Handler execution error: " ++ "boom")]
  ∧ (({} : Evaluator).onOutcome (.error "boom")).finalCallbackTriggered = true
  ∧ ((({} : Evaluator).onOutcome (.error "boom")).onOutcome
        (.error "late")).callbacksFired
      = [("task_error", "Handler execution error: " ++ "boom"),
         ("task_error", "Handler execution error: " ++ "late")] :=
  ⟨(C4_handler_exception_recovered {} "boom" rfl).1,
   (C4_handler_exception_recovered {} "boom" rfl).2.1,
   (C4_handler_exception_recovered {} "boom" rfl).2.2.1,
   (C4_handler_exception_recovered {} "boom" rfl).2.2.2 "late"⟩

/-- C2, counterexample: for a bundle with dependency scripts `[a, b]`
(contents `A`, `B`) and primary script `c` (content `C`), the attach backend
loads the content `"C\nA\nB"` — primary first — and the bridge connect
replay emits the same, not the claimed `"A\nB\nC"`. -/
theorem C2_counterexample :
    (HookManager.load_scripts
        (fun p => if p = "dep_a" then some "A"
          else if p = "dep_b" then some "B"
          else if p = "primary_c" then some "C" else none)
        (fun _ => true) (fun _ => true)
        { scripts := [("primary_c", ["dep_a", "dep_b"])], appProcess := some 7 }
        (fun _ => .ok ())).2.loadedScripts = ["C\nA\nB"]
  ∧ (IpcInjector.connect
        (fun p => if p = "dep_a" then some "A"
          else if p = "dep_b" then some "B"
          else if p = "primary_c" then some "C" else none)
        { scripts := [("primary_c", ["dep_a", "dep_b"])] } "sid").2
      = [("sid", "C\nA\nB")]
  ∧ ("C\nA\nB" : String) ≠ "A\nB\nC" :=
  ⟨rfl, rfl, by decide⟩

/-- C2, amended: for a bundle with dependency scripts `[a, b]` and primary
script `c`, every injection site (attach load, bridge load, bridge connect
replay) injects exactly the concatenation `c\na\nb`: the primary content
first, then the dependency contents in order, joined by single newline
separators. -/
theorem C2_amended_primary_first (fs : String → Option String)
    (a b c A B C : String)
    (ha : fs a = some A) (hb : fs b = some B) (hc : fs c = some C) :
    bundleContent fs (c, [a, b]) = some (C ++ "\n" ++ A ++ "\n" ++ B)
  ∧ (∀ (st : IpcInjector) (sid : String), st.scripts = [(c, [a, b])] →
      (IpcInjector.connect fs st sid).2 = [(sid, C ++ "\n" ++ A ++ "\n" ++ B)])
  ∧ (∀ (st : IpcInjector) (s : String), st.scripts = [(c, [a, b])] →
      st.targetSessionId = [s] →
      (IpcInjector.load_scripts fs st).2.msgFromEvaluator
        = st.msgFromEvaluator ++ [.inject s (C ++ "\n" ++ A ++ "\n" ++ B)])
  ∧ (∀ (attach : Nat → Bool) (compileOk : String → Bool) (st : HookManager)
        (sink : EvalSink) (pid : Nat),
      st.scripts = [(c, [a, b])] → st.appProcess = some pid →
      attach pid = true → compileOk (C ++ "\n" ++ A ++ "\n" ++ B) = true →
      (HookManager.load_scripts fs attach compileOk st sink).2.loadedScripts
        = st.loadedScripts ++ [C ++ "\n" ++ A ++ "\n" ++ B]) := by
  have hcontent : bundleContent fs (c, [a, b])
      = some (C ++ "\n" ++ A ++ "\n" ++ B) := by
    simp [bundleContent, List.mapM.loop, Option.bind, ha, hb, hc,
      String.intercalate, String.intercalate.go, String.append_assoc]
  refine ⟨hcontent, ?_, ?_, ?_⟩
  · intro st sid hs
    simp [IpcInjector.connect, hs, hcontent]
  · intro st s hs hsid
    simp [IpcInjector.load_scripts, IpcInjector.loadStep, hs, hsid, hcontent]
  · intro attach compileOk st sink pid hs hpid hattach hcompile
    simp [HookManager.load_scripts, hs, hpid, hattach, hcontent, hcompile]

/-- C2, witness for the amended theorem at concrete contents. -/
theorem C2_amended_primary_first_witness :
    bundleContent
        (fun p => if p = "a" then some "A"
          else if p = "b" then some "B"
          else if p = "c" then some "C" else none)
        ("c", ["a", "b"])
      = some ("C" ++ "\n" ++ "A" ++ "\n" ++ "B") :=
  (C2_amended_primary_first
    (fun p => if p = "a" then some "A"
      else if p = "b" then some "B"
      else if p = "c" then some "C" else none)
    "a" "b" "c" "A" "B" "C" rfl rfl rfl).1

/-- C3: the code at the failing input of the claim.  `BaseEvaluator` has no
`set_stop_context` method, and `stop()` before any finalization records
exactly one task-end event whose status is always the hard-coded `"stopped"`
and whose reason is always the fixed stop message — never the configured
`"timeout"`/reason pair the claim (and the caller `run_evaluator.py`)
expects — while firing no callback; after a finalization it records no
task-end event at all. -/
theorem C3_stop_hardcodes_stop_status :
    (({ isRunning := true } : Evaluator).stop []).events
      = [(.TASK_END, { status := some "stopped",
                       reason := some Evaluator.stopMessage })]
  ∧ (({ isRunning := true } : Evaluator).stop []).callbacksFired = []
  ∧ Evaluator.stopMessage ≠ "Evaluation timed out after 300 seconds"
  ∧ ("stopped" : String) ≠ "timeout"
  ∧ (({ isRunning := true, finalCallbackTriggered := true } : Evaluator).stop
      []).events = [] :=
  ⟨rfl, rfl, by decide, by decide, rfl⟩

/-- C5: on every backend, `load_scripts` with zero registered bundles returns
false and enqueues no injection commands (the attach backend returns its
state fully unchanged, as the check precedes storing the sink); additionally,
on the bridge backend, registered bundles with zero connected sessions yield
false with no command enqueued. -/
theorem C5_load_scripts_empty_cases
    (fs : String → Option String) (attach : Nat → Bool)
    (compileOk : String → Bool) (sth : HookManager) (sink : EvalSink)
    (sti stib : IpcInjector) (imp : String → Option PyModule)
    (sts : StateInspector)
    (h1 : sth.scripts = []) (h2 : sti.scripts = [])
    (h3 : stib.scripts ≠ []) (h4 : stib.targetSessionId = [])
    (h5 : sts.scripts = []) :
    HookManager.load_scripts fs attach compileOk sth sink = (false, sth)
  ∧ (IpcInjector.load_scripts fs sti).1 = false
  ∧ (IpcInjector.load_scripts fs sti).2.msgFromEvaluator = sti.msgFromEvaluator
  ∧ (IpcInjector.load_scripts fs stib).1 = false
  ∧ (IpcInjector.load_scripts fs stib).2.msgFromEvaluator = stib.msgFromEvaluator
  ∧ StateInspector.load_scripts imp sts
      = (false, { sts with evalHandlerSet := true }) := by
  have hb : stib.scripts.isEmpty = false := by
    simpa [List.isEmpty_iff] using h3
  refine ⟨?_, ?_, ?_, ?_, ?_, ?_⟩
  · simp [HookManager.load_scripts, h1]
  · simp [IpcInjector.load_scripts, h2]
  · simp [IpcInjector.load_scripts, h2]
  · simp [IpcInjector.load_scripts, hb, h4]
  · simp [IpcInjector.load_scripts, hb, h4]
  · simp [StateInspector.load_scripts, h5]

/-- C5, witness at concrete empty-registry and no-session states. -/
theorem C5_load_scripts_empty_cases_witness :
    HookManager.load_scripts (fun _ => none) (fun _ => true) (fun _ => true)
        {} (fun _ => .ok ()) = (false, {})
  ∧ (IpcInjector.load_scripts (fun _ => none)
      ({ scripts := [("c", [])] } : IpcInjector)).1 = false :=
  ⟨(C5_load_scripts_empty_cases (fun _ => none) (fun _ => true) (fun _ => true)
      {} (fun _ => .ok ()) {} { scripts := [("c", [])] } (fun _ => none) {}
      rfl rfl (by decide) rfl rfl).1,
   (C5_load_scripts_empty_cases (fun _ => none) (fun _ => true) (fun _ => true)
      {} (fun _ => .ok ()) {} { scripts := [("c", [])] } (fun _ => none) {}
      rfl rfl (by decide) rfl rfl).2.2.2.1⟩

/-- C6, counterexample: on the attach backend with evaluate-on-completion
configured and a message sink that raises, `unload_scripts` returns without
raising but the teardown is skipped — the loaded script is still loaded —
so teardown does not proceed regardless of the trigger call's outcome. -/
theorem C6_counterexample :
    (HookManager.unload_scripts
        { scripts := [("c", ["a"])], loadedScripts := ["probe"],
          fridaSession := true,
          evalHandler := some (fun _ => .error "sink raised"),
          evaluateOnCompletion := true }).loadedScripts = ["probe"]
  ∧ (["probe"] : List String) ≠ [] :=
  ⟨rfl, by decide⟩

/-- C6, amended: `unload_scripts` never raises (it is total in this
embedding, matching the catch-all handlers in the source) and is idempotent
on all three backends; when `evaluate_on_completion` is configured it invokes
`trigger_evaluate_on_completion` first.  The bridge and library backends then
tear down unconditionally, but on the attach backend teardown only proceeds
when the trigger call returns normally: an exception escaping it is swallowed
and the remaining teardown is skipped. -/
theorem C6_amended_unload_behaviour (sth : HookManager) (sti : IpcInjector)
    (sts : StateInspector) (sink : EvalSink) (e : String) :
    HookManager.unload_scripts (HookManager.unload_scripts sth)
      = HookManager.unload_scripts sth
  ∧ (sth.evaluateOnCompletion = true → sth.evalHandler = some sink →
      sink evaluateOnCompletionMessage = .ok () →
      (HookManager.unload_scripts sth).loadedScripts = []
        ∧ (HookManager.unload_scripts sth).fridaSession = false)
  ∧ (sth.evaluateOnCompletion = false →
      HookManager.unload_scripts sth
        = { sth with loadedScripts := [], fridaSession := false })
  ∧ (sth.evaluateOnCompletion = true → sth.evalHandler = some sink →
      sink evaluateOnCompletionMessage = .error e →
      HookManager.unload_scripts sth = sth)
  ∧ ((IpcInjector.unload_scripts sti).loadedScripts = []
      ∧ (IpcInjector.unload_scripts sti).targetSessionId = []
      ∧ (IpcInjector.unload_scripts sti).serverAlive = false)
  ∧ IpcInjector.unload_scripts (IpcInjector.unload_scripts sti)
      = IpcInjector.unload_scripts sti
  ∧ ((StateInspector.unload_scripts sts).loadedScripts = []
      ∧ StateInspector.unload_scripts (StateInspector.unload_scripts sts)
          = StateInspector.unload_scripts sts) := by
  refine ⟨?_, ?_, ?_, ?_, ?_, ?_, ?_⟩
  · by_cases hec : sth.evaluateOnCompletion
    · cases hEH : sth.evalHandler with
      | none =>
        simp [HookManager.unload_scripts,
          HookManager.trigger_evaluate_on_completion, hec, hEH]
      | some s =>
        cases hres : s evaluateOnCompletionMessage with
        | ok u =>
          simp [HookManager.unload_scripts,
            HookManager.trigger_evaluate_on_completion, hec, hEH, hres]
        | error e2 =>
          simp [HookManager.unload_scripts,
            HookManager.trigger_evaluate_on_completion, hec, hEH, hres]
    · simp [HookManager.unload_scripts, hec]
  · intro hec hEH hres
    simp [HookManager.unload_scripts,
      HookManager.trigger_evaluate_on_completion, hec, hEH, hres]
  · intro hec
    simp [HookManager.unload_scripts, hec]
  · intro hec hEH hres
    simp [HookManager.unload_scripts,
      HookManager.trigger_evaluate_on_completion, hec, hEH, hres]
  · simp [IpcInjector.unload_scripts]
  · simp [IpcInjector.unload_scripts, IpcInjector.trigger_evaluate_on_completion]
  · constructor
    · simp [StateInspector.unload_scripts, StateInspector.trigger_evaluate_on_completion]
    · simp [StateInspector.unload_scripts, StateInspector.trigger_evaluate_on_completion]

/-- C6, witness: the trigger-and-teardown facts at concrete attach-backend
states whose sinks return normally and raise respectively, and the
no-trigger teardown at a default state. -/
theorem C6_amended_unload_behaviour_witness :
    ((HookManager.unload_scripts
        { loadedScripts := ["x"], fridaSession := true,
          evalHandler := some (fun _ => .ok ()),
          evaluateOnCompletion := true }).loadedScripts = []
      ∧ (HookManager.unload_scripts
          { loadedScripts := ["x"], fridaSession := true,
            evalHandler := some (fun _ => .ok ()),
            evaluateOnCompletion := true }).fridaSession = false)
  ∧ HookManager.unload_scripts
        { loadedScripts := ["x"],
          evalHandler := some (fun _ => .error "boom"),
          evaluateOnCompletion := true }
      = { loadedScripts := ["x"],
          evalHandler := some (fun _ => .error "boom"),
          evaluateOnCompletion := true }
  ∧ HookManager.unload_scripts ({ loadedScripts := ["x"] } : HookManager)
      = { loadedScripts := [], fridaSession := false } :=
  ⟨(C6_amended_unload_behaviour
      { loadedScripts := ["x"], fridaSession := true,
        evalHandler := some (fun _ => .ok ()), evaluateOnCompletion := true }
      {} {} (fun _ => .ok ()) "e").2.1 rfl rfl rfl,
   (C6_amended_unload_behaviour
      { loadedScripts := ["x"],
        evalHandler := some (fun _ => .error "boom"),
        evaluateOnCompletion := true }
      {} {} (fun _ => .error "boom") "boom").2.2.2.1 rfl rfl rfl,
   (C6_amended_unload_behaviour ({ loadedScripts := ["x"] } : HookManager)
      {} {} (fun _ => .ok ()) "e").2.2.1 rfl⟩

/-- C7: dispatch of a `key_step` update.  A missing or non-positive index is
warned about and records no key-step-completed event; a positive index is
recorded (with an additional warning when it exceeds the configured total);
the recorded event carries the step index, and the display name exactly when
the handler supplied one. -/
theorem C7_key_step_dispatch (st : Evaluator) (idx : Option Int)
    (nm : Option String) :
    ((idx = none ∨ ∃ i : Int, idx = some i ∧ i ≤ 0) →
        (st.applyUpdate
            (.dict { status := some "key_step", index := idx, name := nm })).events
          = st.events
      ∧ (st.applyUpdate
            (.dict { status := some "key_step", index := idx, name := nm })).logs
          = st.logs ++
            [(.warning, "Handler returned key_step with invalid index")])
  ∧ (∀ i : Int, idx = some i → 0 < i → i ≤ st.totalKeySteps →
        (st.applyUpdate
            (.dict { status := some "key_step", index := idx, name := nm })).events
          = st.events ++
            [(.KEY_STEP_COMPLETED, { stepIndex := some i, stepName := nm })]
      ∧ (st.applyUpdate
            (.dict { status := some "key_step", index := idx, name := nm })).logs
          = st.logs ++ [(.info, "Handler reported key step completion")])
  ∧ (∀ i : Int, idx = some i → 0 < i → st.totalKeySteps < i →
        (st.applyUpdate
            (.dict { status := some "key_step", index := idx, name := nm })).events
          = st.events ++
            [(.KEY_STEP_COMPLETED, { stepIndex := some i, stepName := nm })]
      ∧ (st.applyUpdate
            (.dict { status := some "key_step", index := idx, name := nm })).logs
          = st.logs ++
            [(.warning, "Handler returned key_step index exceeds total steps"),
             (.info, "Handler reported key step completion")]) := by
  refine ⟨?_, ?_, ?_⟩
  · rintro (hnone | ⟨i, hi, hle⟩)
    · subst hnone
      simp [Evaluator.applyUpdate, Evaluator.log]
    · subst hi
      simp [Evaluator.applyUpdate, Evaluator.log, hle]
  · intro i hi h0 hle
    subst hi
    simp [Evaluator.applyUpdate, Evaluator.log, Evaluator.record_event,
      h0.not_le, hle.not_lt]
  · intro i hi h0 hlt
    subst hi
    simp [Evaluator.applyUpdate, Evaluator.log, Evaluator.record_event,
      h0.not_le, hlt]

/-- C7, witness: the three branches at concrete indices against a configured
total of 3 key steps. -/
theorem C7_key_step_dispatch_witness :
    (({ totalKeySteps := 3 } : Evaluator).applyUpdate
        (.dict { status := some "key_step", index := some 0,
                 name := some "named" })).events = []
  ∧ (({ totalKeySteps := 3 } : Evaluator).applyUpdate
        (.dict { status := some "key_step", index := some 2,
                 name := some "named" })).events
      = [(.KEY_STEP_COMPLETED, { stepIndex := some 2, stepName := some "named" })]
  ∧ (({ totalKeySteps := 3 } : Evaluator).applyUpdate
        (.dict { status := some "key_step", index := some 5,
                 name := none })).events
      = [(.KEY_STEP_COMPLETED, { stepIndex := some 5, stepName := none })]
  ∧ (({ totalKeySteps := 3 } : Evaluator).applyUpdate
        (.dict { status := some "key_step", index := some 5, name := none })).logs
      = [(.warning, "Handler returned key_step index exceeds total steps"),
         (.info, "Handler reported key step completion")] :=
  ⟨((C7_key_step_dispatch { totalKeySteps := 3 } (some 0) (some "named")).1
      (Or.inr ⟨0, rfl, by decide⟩)).1,
   ((C7_key_step_dispatch { totalKeySteps := 3 } (some 2) (some "named")).2.1
      2 rfl (by decide) (by decide)).1,
   ((C7_key_step_dispatch { totalKeySteps := 3 } (some 5) none).2.2
      5 rfl (by decide) (by decide)).1,
   ((C7_key_step_dispatch { totalKeySteps := 3 } (some 5) none).2.2
      5 rfl (by decide) (by decide)).2⟩

/-- Registry shape of the bridge backend's per-bundle load loop: the script
registry itself is never written by the loop. -/
lemma ipc_loadStep_scripts (fs : String → Option String) :
    ∀ (l : List (String × List String)) (acc : Bool × IpcInjector),
      (l.foldl (IpcInjector.loadStep fs) acc).2.scripts = acc.2.scripts := by
  intro l
  induction l with
  | nil => intro acc; rfl
  | cons hd tl ih =>
    intro acc
    rw [List.foldl_cons, ih]
    obtain ⟨success, st⟩ := acc
    unfold IpcInjector.loadStep
    cases bundleContent fs hd <;> rfl

/-- Registry shape of the library backend's per-bundle load loop: each
registered bundle `(p, deps)` is rewritten to `(p, deps ++ [p])`, in
order. -/
lemma stateInspector_loadStep_scripts (imp : String → Option PyModule) :
    ∀ (l : List (String × List String)) (acc : StateInspector),
      (l.foldl (StateInspector.loadStep imp) acc).scripts
        = acc.scripts ++ l.map (fun b => (b.1, b.2 ++ [b.1])) := by
  intro l
  induction l with
  | nil => intro acc; simp
  | cons hd tl ih =>
    intro acc
    rw [List.foldl_cons, ih]
    obtain ⟨p, deps⟩ := hd
    unfold StateInspector.loadStep
    simp only [List.map_cons, List.cons_append, List.append_assoc,
      List.singleton_append]
    split <;> simp

/-- C8, counterexample: on the library backend, one `load_scripts` call after
registration changes the registered bundle — the bundle `("c", ["a", "b"])`
becomes `("c", ["a", "b", "c"])` because the source appends the primary path
to the stored dependency list — so registered bundles are not immutable on
every backend. -/
theorem C8_counterexample :
    (StateInspector.load_scripts (fun _ => none)
        { scripts := [("c", ["a", "b"])] }).2.scripts
      = [("c", ["a", "b", "c"])]
  ∧ ([("c", ["a", "b", "c"])] : List (String × List String))
      ≠ [("c", ["a", "b"])] :=
  ⟨rfl, by decide⟩

/-- C8, amended: registered bundles are immutable after registration on the
attach and bridge backends — no load, connect replay, evaluate trigger or
unload changes the registry — while on the library backend each
`load_scripts` call appends the bundle's primary path to its stored
dependency list, leaving the primary path itself unchanged. -/
theorem C8_amended_bundle_mutability (fs : String → Option String)
    (attach : Nat → Bool) (compileOk : String → Bool) (sth : HookManager)
    (sink : EvalSink) (sti : IpcInjector) (sid : String)
    (imp : String → Option PyModule) (sts : StateInspector) :
    (HookManager.load_scripts fs attach compileOk sth sink).2.scripts
      = sth.scripts
  ∧ (HookManager.unload_scripts sth).scripts = sth.scripts
  ∧ (IpcInjector.load_scripts fs sti).2.scripts = sti.scripts
  ∧ (IpcInjector.connect fs sti sid).1.scripts = sti.scripts
  ∧ (IpcInjector.trigger_evaluate_on_completion sti).scripts = sti.scripts
  ∧ (IpcInjector.unload_scripts sti).scripts = sti.scripts
  ∧ (StateInspector.unload_scripts sts).scripts = sts.scripts
  ∧ (StateInspector.load_scripts imp sts).2.scripts
      = sts.scripts.map (fun b => (b.1, b.2 ++ [b.1])) := by
  refine ⟨?_, ?_, ?_, ?_, ?_, ?_, ?_, ?_⟩
  · unfold HookManager.load_scripts
    by_cases hs : sth.scripts.isEmpty
    · simp [hs]
    · simp only [hs]
      cases sth.appProcess with
      | none => rfl
      | some pid =>
        by_cases ha : attach pid <;> simp [ha]
  · unfold HookManager.unload_scripts
    by_cases hec : sth.evaluateOnCompletion
    · simp only [hec]
      cases sth.trigger_evaluate_on_completion <;> rfl
    · simp [hec]
  · unfold IpcInjector.load_scripts
    by_cases hs : sti.scripts.isEmpty
    · simp [hs]
    · by_cases ht : sti.targetSessionId.isEmpty
      · simp [hs, ht]
      · simp [hs, ht, ipc_loadStep_scripts]
  · rfl
  · rfl
  · unfold IpcInjector.unload_scripts
    by_cases hec : sti.evaluateOnCompletion <;>
      simp [hec, IpcInjector.trigger_evaluate_on_completion]
  · unfold StateInspector.unload_scripts
    by_cases hec : sts.evaluateOnCompletion <;>
      simp [hec, StateInspector.trigger_evaluate_on_completion]
  · unfold StateInspector.load_scripts
    by_cases hs : sts.scripts.isEmpty
    · rcases List.isEmpty_iff.mp hs with h
      simp [hs, h]
    · simp [hs, stateInspector_loadStep_scripts]

/-- C9: `start_app` returns true for every input on both process-launching
backends, always marks the application as started, and when the application
path resolves neither as an existing filesystem path nor via the process
lookup path it is a pure no-op success: no process is spawned and nothing
else in the state changes.  (The bridge backend never consults the lookup
path at all, so a non-existing path is a no-op there regardless of the
lookup result.) -/
theorem C9_start_app_always_true (fs : String → Option String)
    (which : String → Option String) (spawn : List String → Except String Nat)
    (sth : HookManager) (sti : IpcInjector) :
    (HookManager.start_app fs which spawn sth).1 = true
  ∧ (HookManager.start_app fs which spawn sth).2.appStarted = true
  ∧ (∀ p, sth.appPath = some p → fs p = none → which p = none →
      (HookManager.start_app fs which spawn sth).2
        = { sth with appStarted := true })
  ∧ (IpcInjector.start_app fs spawn sti).1 = true
  ∧ (IpcInjector.start_app fs spawn sti).2.appStarted = true
  ∧ (∀ p, sti.appPath = some p → fs p = none →
      (IpcInjector.start_app fs spawn sti).2
        = { sti with appStarted := true }) := by
  refine ⟨rfl, rfl, ?_, rfl, rfl, ?_⟩
  · intro p hp hfs hw
    unfold HookManager.start_app
    simp [hp, hfs, hw]
  · intro p hp hfs
    unfold IpcInjector.start_app
    simp [hp, hfs]

/-- C9, witness: an unresolvable path is a no-op success on both backends. -/
theorem C9_start_app_always_true_witness :
    HookManager.start_app (fun _ => none) (fun _ => none)
        (fun _ => .error "spawn failed")
        ({ appPath := some "ghost" } : HookManager)
      = (true, { appPath := some "ghost", appStarted := true })
  ∧ IpcInjector.start_app (fun _ => none) (fun _ => .error "spawn failed")
        ({ appPath := some "ghost" } : IpcInjector)
      = (true, { appPath := some "ghost", appStarted := true }) := by
  have h := C9_start_app_always_true (fun _ => none) (fun _ => none)
    (fun _ => .error "spawn failed") ({ appPath := some "ghost" } : HookManager)
    ({ appPath := some "ghost" } : IpcInjector)
  exact ⟨Prod.ext h.1 (h.2.2.1 "ghost" rfl rfl rfl),
         Prod.ext h.2.2.2.1 (h.2.2.2.2.2 "ghost" rfl rfl)⟩

/-- A configured script whose path does not exist forces the constructor's
registration loop to raise, wherever it sits in the list. -/
lemma registerScripts_error_of_missing (fs : String → Option String) :
    ∀ (cfgs : List ScriptCfg) (c : ScriptCfg), c ∈ cfgs → fs c.path = none →
      ∃ e, registerScripts fs cfgs = .error e := by
  intro cfgs
  induction cfgs with
  | nil => intro c hc; exact absurd hc (List.not_mem_nil c)
  | cons hd tl ih =>
    intro c hc hp
    rcases List.mem_cons.mp hc with rfl | hc
    · exact ⟨"Script file does not exist", by simp [registerScripts, hp]⟩
    · by_cases hhd : (fs hd.path).isNone
      · exact ⟨"Script file does not exist", by simp [registerScripts, hhd]⟩
      · by_cases hrole : hd.role = "hook"
        · obtain ⟨e, he⟩ := ih c hc hp
          cases hcd : checkDeps fs (hd.dependency.getD []) with
          | error e2 =>
            exact ⟨e2, by simp [registerScripts, hhd, hrole, hcd]⟩
          | ok deps =>
            exact ⟨e, by simp [registerScripts, hhd, hrole, hcd, he]⟩
        · obtain ⟨e, he⟩ := ih c hc hp
          exact ⟨e, by simp [registerScripts, hhd, hrole, he]⟩

/-- C10: on every backend, `add_script` with a primary script path that does
not exist on disk raises nothing and leaves the backend state — in
particular its script registry and any previously registered bundles —
entirely unchanged; only the evaluator constructor's registration loop turns
a missing configured script path into a raised error. -/
theorem C10_add_script_missing_path (fs : String → Option String)
    (p : String) (deps : List String) (sth : HookManager) (sti : IpcInjector)
    (sts : StateInspector) (cfgs : List ScriptCfg) (c : ScriptCfg)
    (hp : fs p = none) :
    HookManager.add_script fs sth p deps = sth
  ∧ IpcInjector.add_script fs sti p deps = sti
  ∧ StateInspector.add_script fs sts p deps = sts
  ∧ (c ∈ cfgs → fs c.path = none → ∃ e, registerScripts fs cfgs = .error e) := by
  refine ⟨?_, ?_, ?_, ?_⟩
  · simp [HookManager.add_script, hp]
  · simp [IpcInjector.add_script, hp]
  · simp [StateInspector.add_script, hp]
  · intro hc hcp
    exact registerScripts_error_of_missing fs cfgs c hc hcp

/-- C10, witness: a missing path leaves a pre-populated registry untouched,
while the constructor loop raises on the very same path. -/
theorem C10_add_script_missing_path_witness :
    HookManager.add_script (fun _ => none)
        ({ scripts := [("old", [])] } : HookManager) "ghost" []
      = { scripts := [("old", [])] }
  ∧ (∃ e, registerScripts (fun _ => none)
        [{ path := "ghost", role := "hook" }] = .error e) :=
  ⟨(C10_add_script_missing_path (fun _ => none) "ghost" []
      { scripts := [("old", [])] } {} {}
      [{ path := "ghost", role := "hook" }]
      { path := "ghost", role := "hook" } rfl).1,
   (C10_add_script_missing_path (fun _ => none) "ghost" []
      { scripts := [("old", [])] } {} {}
      [{ path := "ghost", role := "hook" }]
      { path := "ghost", role := "hook" } rfl).2.2.2
     (List.mem_singleton.mpr rfl) rfl⟩

end PCCanary
